import Mathlib

/-!
Verification of the Profile & Document Consistency Engine of the
skillMatchBackend repository, embedded shallowly from
`src/controllers/user.controller.ts`.

The embedding covers:
* the completion scorer `updateProfileCompletion` (lines 1050-1159);
* the resume registry transitions of `uploadResume` (lines 249-333) and
  `deleteResume` (lines 336-404) over a list of `user_documents` rows;
* event-ordered executions of `updateProfile` (lines 55-219),
  `uploadResume` and `deleteResume`, with an explicit failure point for
  each database query, mirroring the try/catch/ROLLBACK structure and the
  non-transactional `fs.unlinkSync` file-store side effects.

Database NULLs are `Option.none`; JavaScript truthiness of a nullable
string column is `truthy`; `Math.round` on the non-negative numbers used
here is `jsRound`.
-/

namespace SkillMatch

/-- JavaScript truthiness of a nullable string value (`null` and `""` are
falsy, every other string is truthy). -/
def truthy : Option String → Bool
  | none => false
  | some s => s != ""

/-- `Math.round` on a non-negative rational: round half up. -/
def jsRound (q : ℚ) : ℤ := ⌊q + 1 / 2⌋

/-- `Math.round(file.size / 1024)` from `uploadResume` (line 283): the value
stored into `user_documents.file_size_kb`. -/
def storedFileSizeKb (sizeBytes : ℕ) : ℤ := jsRound ((sizeBytes : ℚ) / 1024)

/-- The `user_profiles` columns read and written by the controller.
Nullable text columns are `Option String`. -/
structure ProfileRow where
  job_title : Option String
  location : Option String
  profile_summary : Option String
  professional_summary : Option String
  years_of_experience : Option String
  experience_level : Option String
  primary_industry : Option String
  website_url : Option String
  linkedin_url : Option String
  github_url : Option String
  profile_image_url : Option String
  profile_completion : ℤ
deriving DecidableEq, Repr

/-- The four `COUNT(*)` values read by `updateProfileCompletion`
(lines 1056-1064). -/
structure Counts where
  experience_count : ℕ
  education_count : ℕ
  skill_count : ℕ
  resume_count : ℕ
deriving DecidableEq, Repr

/-- Basic-info category of the scorer (weights object, line 1087, applied at
lines 1099-1101): 5 points per truthy field. -/
def basicInfoScore (p : ProfileRow) : ℚ :=
  (if truthy p.job_title then 5 else 0) +
  (if truthy p.location then 5 else 0) +
  (if truthy p.years_of_experience then 5 else 0) +
  (if truthy p.experience_level then 5 else 0) +
  (if truthy p.primary_industry then 5 else 0)

/-- Summary category (line 1088, applied at lines 1104-1106). -/
def summariesScore (p : ProfileRow) : ℚ :=
  (if truthy p.profile_summary then 10 else 0) +
  (if truthy p.professional_summary then 10 else 0)

/-- Raw link score before the cap (line 1089, applied at lines 1109-1112). -/
def linkScore (p : ProfileRow) : ℚ :=
  (if truthy p.website_url then 3 else 0) +
  (if truthy p.linkedin_url then 4 else 0) +
  (if truthy p.github_url then 3 else 0)

/-- Experience category (lines 1121-1123): `min(15, 5 + count·2)` when the
count is positive. -/
def experienceScore (c : ℕ) : ℚ :=
  if 0 < c then min 15 (5 + (c : ℚ) * 2) else 0

/-- Education category (lines 1126-1128): `min(10, 5 + count·2.5)` when the
count is positive. -/
def educationScore (c : ℕ) : ℚ :=
  if 0 < c then min 10 (5 + (c : ℚ) * (5 / 2)) else 0

/-- Skill category (lines 1131-1133): `min(15, 3 + count·1)` when the count
is positive. -/
def skillScore (c : ℕ) : ℚ :=
  if 0 < c then min 15 (3 + (c : ℚ) * 1) else 0

/-- Resume category (lines 1136-1138): flat 10 when a resume row exists. -/
def resumeScore (c : ℕ) : ℚ := if 0 < c then 10 else 0

/-- Profile-image category (lines 1116-1118). -/
def imageScore (p : ProfileRow) : ℚ :=
  if truthy p.profile_image_url then 5 else 0

/-- The `completionPercentage` accumulator of `updateProfileCompletion`
after all categories were added (lines 1085-1138); the link category is
capped at 10 before being added (line 1113). -/
def completionSum (p : ProfileRow) (c : Counts) : ℚ :=
  basicInfoScore p + summariesScore p + min (linkScore p) 10 + imageScore p +
    experienceScore c.experience_count + educationScore c.education_count +
    skillScore c.skill_count + resumeScore c.resume_count

/-- `finalPercentage` (line 1141):
`Math.max(0, Math.min(100, Math.round(completionPercentage)))`. -/
def finalPercentage (p : ProfileRow) (c : Counts) : ℤ :=
  max 0 (min 100 (jsRound (completionSum p c)))

/-! Claim-side restatement of the scorer, following the words of the spec:
per-category point totals, summed, rounded and clamped. -/

/-- Indicator of a truthy field, for the spec-side score statement. -/
def ind (b : Bool) : ℚ := if b then 1 else 0

/-- The sum the specification describes: 5 points for each non-empty basic
field, 10 for each non-empty summary, link weights 3/4/3 capped at 10, 5 for
an image, the three count-scaled categories, 10 for a resume. -/
def specSum (p : ProfileRow) (c : Counts) : ℚ :=
  5 * (ind (truthy p.job_title) + ind (truthy p.location) +
    ind (truthy p.years_of_experience) + ind (truthy p.experience_level) +
    ind (truthy p.primary_industry)) +
  10 * (ind (truthy p.profile_summary) + ind (truthy p.professional_summary)) +
  min ((if truthy p.website_url then 3 else 0) +
    (if truthy p.linkedin_url then 4 else 0) +
    (if truthy p.github_url then 3 else 0)) 10 +
  (if truthy p.profile_image_url then 5 else 0) +
  (if 0 < c.experience_count then min 15 (5 + 2 * (c.experience_count : ℚ)) else 0) +
  (if 0 < c.education_count then min 10 (5 + (5 / 2) * (c.education_count : ℚ)) else 0) +
  (if 0 < c.skill_count then min 15 (3 + (c.skill_count : ℚ)) else 0) +
  (if 0 < c.resume_count then 10 else 0)

/-- The score as the specification states it: `clamp(round(S), 0, 100)`. -/
def specScore (p : ProfileRow) (c : Counts) : ℤ :=
  max 0 (min 100 (jsRound (specSum p c)))

/-- A profile row with every scored field empty. -/
def emptyProfileRow : ProfileRow :=
  { job_title := none, location := none, profile_summary := none,
    professional_summary := none, years_of_experience := none,
    experience_level := none, primary_industry := none, website_url := none,
    linkedin_url := none, github_url := none, profile_image_url := none,
    profile_completion := 0 }

/-- A profile row with every scored field populated. -/
def fullProfileRow : ProfileRow :=
  { job_title := some "t", location := some "n",
    profile_summary := some "s", professional_summary := some "p",
    years_of_experience := some "4", experience_level := some "m",
    primary_industry := some "i", website_url := some "w",
    linkedin_url := some "l", github_url := some "g",
    profile_image_url := some "u", profile_completion := 0 }

lemma basicInfoScore_eq (p : ProfileRow) :
    basicInfoScore p =
      5 * (ind (truthy p.job_title) + ind (truthy p.location) +
        ind (truthy p.years_of_experience) + ind (truthy p.experience_level) +
        ind (truthy p.primary_industry)) := by
  have h : ∀ b1 b2 b3 b4 b5 : Bool,
      ((if b1 then (5 : ℚ) else 0) + (if b2 then 5 else 0) +
        (if b3 then 5 else 0) + (if b4 then 5 else 0) +
        (if b5 then 5 else 0)) =
      5 * (ind b1 + ind b2 + ind b3 + ind b4 + ind b5) := by
    intro b1 b2 b3 b4 b5
    cases b1 <;> cases b2 <;> cases b3 <;> cases b4 <;> cases b5 <;>
      norm_num [ind]
  exact h _ _ _ _ _

lemma summariesScore_eq (p : ProfileRow) :
    summariesScore p =
      10 * (ind (truthy p.profile_summary) + ind (truthy p.professional_summary)) := by
  have h : ∀ b1 b2 : Bool,
      ((if b1 then (10 : ℚ) else 0) + (if b2 then 10 else 0)) =
      10 * (ind b1 + ind b2) := by
    intro b1 b2
    cases b1 <;> cases b2 <;> norm_num [ind]
  exact h _ _

lemma completionSum_eq_specSum (p : ProfileRow) (c : Counts) :
    completionSum p c = specSum p c := by
  unfold completionSum specSum
  rw [basicInfoScore_eq, summariesScore_eq]
  unfold linkScore imageScore experienceScore educationScore skillScore resumeScore
  ring_nf

/-- C1: for every profile and every tuple of counts, the completion score
computed by `updateProfileCompletion` equals `clamp(round(S), 0, 100)` with
`S` the specification's weighted sum. -/
theorem completion_score_matches_spec (p : ProfileRow) (c : Counts) :
    finalPercentage p c = specScore p c := by
  unfold finalPercentage specScore
  rw [completionSum_eq_specSum]

lemma jsRound_natCast (n : ℕ) : jsRound (n : ℚ) = n := by
  unfold jsRound
  rw [Int.floor_eq_iff]
  constructor
  · push_cast; linarith
  · push_cast; linarith

lemma completionSum_empty : completionSum emptyProfileRow ⟨0, 0, 0, 0⟩ = 0 := by
  norm_num [completionSum, basicInfoScore, summariesScore, linkScore,
    imageScore, experienceScore, educationScore, skillScore, resumeScore,
    emptyProfileRow, truthy]

lemma completionSum_full (e d s r : ℕ) (he : 5 ≤ e) (hd : 3 ≤ d)
    (hs : 13 ≤ s) (hr : 1 ≤ r) :
    completionSum fullProfileRow ⟨e, d, s, r⟩ = 110 := by
  have hce : (5 : ℚ) ≤ (e : ℚ) := by exact_mod_cast he
  have hcd : (3 : ℚ) ≤ (d : ℚ) := by exact_mod_cast hd
  have hcs : (13 : ℚ) ≤ (s : ℚ) := by exact_mod_cast hs
  have h1 : experienceScore e = 15 := by
    rw [experienceScore, if_pos (by omega), min_eq_left (by linarith)]
  have h2 : educationScore d = 10 := by
    rw [educationScore, if_pos (by omega), min_eq_left (by linarith)]
  have h3 : skillScore s = 15 := by
    rw [skillScore, if_pos (by omega), min_eq_left (by linarith)]
  have h4 : resumeScore r = 10 := by
    rw [resumeScore, if_pos (by omega)]
  simp only [completionSum, h1, h2, h3, h4]
  norm_num +decide [basicInfoScore, summariesScore, linkScore, imageScore,
    fullProfileRow, truthy]

/-- C7: the all-empty profile with zero counts scores exactly 0; a fully
populated profile with at least 5 experience entries, 3 education entries,
13 skills and one resume has unclamped sum 110 and scores exactly 100. -/
theorem boundary_scores (e d s r : ℕ) (he : 5 ≤ e) (hd : 3 ≤ d)
    (hs : 13 ≤ s) (hr : 1 ≤ r) :
    finalPercentage emptyProfileRow ⟨0, 0, 0, 0⟩ = 0 ∧
    completionSum fullProfileRow ⟨e, d, s, r⟩ = 110 ∧
    finalPercentage fullProfileRow ⟨e, d, s, r⟩ = 100 := by
  have hz : jsRound ((0 : ℕ) : ℚ) = 0 := jsRound_natCast 0
  have hf : jsRound ((110 : ℕ) : ℚ) = 110 := jsRound_natCast 110
  refine ⟨?_, completionSum_full e d s r he hd hs hr, ?_⟩
  · rw [finalPercentage, completionSum_empty]
    norm_num at hz ⊢
    rw [hz]
  · rw [finalPercentage, completionSum_full e d s r he hd hs hr]
    norm_num at hf ⊢
    rw [hf]
    norm_num

/-- Witness for C7 at the threshold counts. -/
theorem boundary_scores_witness :
    finalPercentage emptyProfileRow ⟨0, 0, 0, 0⟩ = 0 ∧
    completionSum fullProfileRow ⟨5, 3, 13, 1⟩ = 110 ∧
    finalPercentage fullProfileRow ⟨5, 3, 13, 1⟩ = 100 :=
  boundary_scores 5 3 13 1 (by decide) (by decide) (by decide) (by decide)

/-! ### The `user_documents` registry -/

/-- A `user_documents` row, with the columns touched by the resume
endpoints. -/
structure Doc where
  id : ℕ
  user_id : ℕ
  document_type : String
  file_name : String
  storage_url : String
  file_size_kb : ℤ
  is_default_resume : Bool
deriving DecidableEq, Repr

/-- The next value of the `id` serial column. -/
def nextId (db : List Doc) : ℕ :=
  db.foldr (fun d m => max d.id m) 0 + 1

/-- The row inserted by `uploadResume` (lines 273-286): type `'resume'`,
URL `/uploads/<filename>`, size `Math.round(file.size / 1024)`, and
`is_default_resume = true`. -/
def newResumeDoc (userId nid : ℕ) (origName fname : String)
    (sizeBytes : ℕ) : Doc :=
  { id := nid, user_id := userId, document_type := "resume",
    file_name := origName, storage_url := "/uploads/" ++ fname,
    file_size_kb := storedFileSizeKb sizeBytes, is_default_resume := true }

/-- The `UPDATE` of `uploadResume` (lines 291-296): clear
`is_default_resume` on every other resume row of the user. -/
def clearOtherDefaults (userId nid : ℕ) (db : List Doc) : List Doc :=
  db.map fun d =>
    if d.user_id == userId && d.id != nid && d.document_type == "resume"
    then { d with is_default_resume := false } else d

/-- The committed registry effect of a successful `uploadResume`: insert the
new default row, then clear the other defaults (insert-then-clear, in this
order, within one transaction). -/
def uploadResumeDb (userId : ℕ) (origName fname : String) (sizeBytes : ℕ)
    (db : List Doc) : List Doc :=
  let nid := nextId db
  clearOtherDefaults userId nid (db ++ [newResumeDoc userId nid origName fname sizeBytes])

/-- The committed registry effect of `deleteResume` (lines 348-374): the row
is deleted only if a resume row with that id is owned by the caller
(otherwise a 404 is returned and nothing changes); the `DELETE` filters on
id and user only. -/
def deleteResumeDb (userId rid : ℕ) (db : List Doc) : List Doc :=
  if db.any (fun d => d.id == rid && d.user_id == userId && d.document_type == "resume")
  then db.filter (fun d => !(d.id == rid && d.user_id == userId))
  else db

/-- Predicate for a user's default resume rows. -/
def isUserDefaultResume (u : ℕ) (d : Doc) : Bool :=
  d.user_id == u && d.document_type == "resume" && d.is_default_resume

/-- How many resume rows of user `u` carry `is_default_resume = true`. -/
def defaultResumeCount (u : ℕ) (db : List Doc) : ℕ :=
  db.countP (isUserDefaultResume u)

/-- One committed resume operation of a request sequence. -/
inductive ResumeOp where
  | upload (userId : ℕ) (origName fname : String) (sizeBytes : ℕ)
  | del (userId rid : ℕ)
deriving DecidableEq, Repr

/-- Apply one committed operation to the registry. -/
def applyOp (db : List Doc) : ResumeOp → List Doc
  | .upload u o f s => uploadResumeDb u o f s db
  | .del u r => deleteResumeDb u r db

/-- Run a sequence of committed resume operations from the empty registry. -/
def runOps (ops : List ResumeOp) : List Doc := ops.foldl applyOp []

lemma le_maxId (db : List Doc) :
    ∀ d ∈ db, d.id ≤ db.foldr (fun d m => max d.id m) 0 := by
  induction db with
  | nil => intro d hd; cases hd
  | cons x xs ih =>
    intro d hd
    rcases List.mem_cons.mp hd with rfl | hx
    · exact Nat.le_max_left _ _
    · exact le_trans (ih d hx) (Nat.le_max_right _ _)

lemma id_lt_nextId (db : List Doc) (d : Doc) (hd : d ∈ db) :
    d.id < nextId db := by
  have := le_maxId db d hd
  unfold nextId
  omega

lemma upload_defaultCount_self (u : ℕ) (o f : String) (s : ℕ)
    (db : List Doc) :
    defaultResumeCount u (uploadResumeDb u o f s db) = 1 := by
  unfold defaultResumeCount uploadResumeDb clearOtherDefaults
  rw [List.map_append, List.countP_append]
  have hdb : (db.map fun d =>
      if d.user_id == u && d.id != nextId db && d.document_type == "resume"
      then { d with is_default_resume := false } else d).countP
        (isUserDefaultResume u) = 0 := by
    rw [List.countP_eq_zero]
    intro a ha
    obtain ⟨d, hd, rfl⟩ := List.mem_map.mp ha
    have hlt := id_lt_nextId db d hd
    intro hp
    split at hp
    · simp [isUserDefaultResume] at hp
    · rename_i hcond
      simp only [isUserDefaultResume, Bool.and_eq_true, beq_iff_eq] at hp
      obtain ⟨⟨hu, ht⟩, _⟩ := hp
      simp [hu, ht] at hcond
      omega
  have hnew : ([newResumeDoc u (nextId db) o f s].map fun d =>
      if d.user_id == u && d.id != nextId db && d.document_type == "resume"
      then { d with is_default_resume := false } else d).countP
        (isUserDefaultResume u) = 1 := by
    simp [newResumeDoc, isUserDefaultResume]
  omega

lemma upload_defaultCount_other (u v : ℕ) (hne : v ≠ u) (o f : String)
    (s : ℕ) (db : List Doc) :
    defaultResumeCount v (uploadResumeDb u o f s db) =
      defaultResumeCount v db := by
  unfold defaultResumeCount uploadResumeDb clearOtherDefaults
  rw [List.map_append, List.countP_append]
  have hnew : ([newResumeDoc u (nextId db) o f s].map fun d =>
      if d.user_id == u && d.id != nextId db && d.document_type == "resume"
      then { d with is_default_resume := false } else d).countP
        (isUserDefaultResume v) = 0 := by
    simp [newResumeDoc, isUserDefaultResume, Ne.symm hne]
  rw [hnew, List.countP_map]
  have hdb : db.countP ((isUserDefaultResume v) ∘ fun d =>
      if d.user_id == u && d.id != nextId db && d.document_type == "resume"
      then { d with is_default_resume := false } else d) =
      db.countP (isUserDefaultResume v) := by
    apply List.countP_congr
    intro d _
    simp only [Function.comp_apply]
    split
    · rename_i hcond
      simp only [Bool.and_eq_true, beq_iff_eq] at hcond
      obtain ⟨⟨hu, _⟩, _⟩ := hcond
      simp [isUserDefaultResume, hu, Ne.symm hne]
    · exact Iff.rfl
  omega

lemma delete_defaultCount_le (u uid rid : ℕ) (db : List Doc) :
    defaultResumeCount u (deleteResumeDb uid rid db) ≤
      defaultResumeCount u db := by
  unfold defaultResumeCount deleteResumeDb
  split
  · exact (List.filter_sublist db).countP_le _
  · exact le_refl _

lemma foldl_defaultCount_le (ops : List ResumeOp) :
    ∀ db : List Doc, (∀ u, defaultResumeCount u db ≤ 1) →
      ∀ u, defaultResumeCount u (ops.foldl applyOp db) ≤ 1 := by
  induction ops with
  | nil => intro db h u; exact h u
  | cons op rest ih =>
    intro db h u
    rw [List.foldl_cons]
    apply ih
    intro v
    cases op with
    | upload uu o f s =>
      by_cases hv : v = uu
      · subst hv
        rw [applyOp, upload_defaultCount_self]
      · rw [applyOp, upload_defaultCount_other uu v hv]
        exact h v
    | del uu rid =>
      exact le_trans (delete_defaultCount_le v uu rid db) (h v)

/-- A fixed document row used to witness the frame property of
`deleteResumeDb`. -/
def witnessDoc : Doc :=
  { id := 3, user_id := 4, document_type := "resume", file_name := "r",
    storage_url := "/uploads/r", file_size_kb := 7,
    is_default_resume := true }

/-- C2: after any sequence of committed resume uploads and deletions, each
user has at most one default resume row; a delete never alters a surviving
row (so it cannot promote another resume to default), and deleting the only
default leaves zero defaults as a valid committed state. -/
theorem default_resume_uniqueness :
    (∀ ops u, defaultResumeCount u (runOps ops) ≤ 1) ∧
    (∀ uid rid db (d : Doc), d ∈ deleteResumeDb uid rid db → d ∈ db) ∧
    defaultResumeCount 1 (runOps [.upload 1 "r" "f" 1024, .del 1 1]) = 0 := by
  refine ⟨?_, ?_, ?_⟩
  · intro ops u
    exact foldl_defaultCount_le ops [] (fun _ => by simp [defaultResumeCount]) u
  · intro uid rid db d hd
    unfold deleteResumeDb at hd
    split at hd
    · exact List.mem_of_mem_filter hd
    · exact hd
  · decide

/-- Witness for C2: a delete targeting an absent row keeps every existing
row (applied at a concrete registry). -/
theorem default_resume_uniqueness_witness :
    witnessDoc ∈ ([witnessDoc] : List Doc) :=
  default_resume_uniqueness.2.1 5 2 [witnessDoc] witnessDoc (by decide)

lemma storedFileSizeKb_eq (n : ℕ) :
    storedFileSizeKb n = (((n + 512) / 1024 : ℕ) : ℤ) := by
  have h1 : ((n + 512) / 1024) * 2048 ≤ 2 * n + 1024 := by omega
  have h2 : 2 * n + 1024 < ((n + 512) / 1024 + 1) * 2048 := by omega
  unfold storedFileSizeKb jsRound
  rw [Int.floor_eq_iff]
  have hq : ((n : ℚ)) / 1024 + 1 / 2 = (2 * (n : ℚ) + 1024) / 2048 := by
    ring
  rw [hq]
  constructor
  · rw [le_div_iff₀ (by norm_num)]
    exact_mod_cast h1
  · rw [div_lt_iff₀ (by norm_num)]
    exact_mod_cast h2

/-- C8 counterexample: a 1536-byte upload is recorded with size 2, not
1536 — the stored size is not the size in bytes. -/
theorem resume_size_not_bytes :
    (newResumeDoc 1 2 "r" "f" 1536).file_size_kb = 2 ∧ (2 : ℤ) ≠ 1536 := by
  constructor
  · show storedFileSizeKb 1536 = 2
    rw [storedFileSizeKb_eq]
    norm_num
  · decide

/-- C8 (amended): the size recorded in the document row is the uploaded
file's size in kilobytes, rounded half-up — `Math.round(bytes / 1024)`,
equal to `(bytes + 512) / 1024` in integer arithmetic. -/
theorem resume_size_rounded_kb (u nid : ℕ) (o f : String) (n : ℕ) :
    (newResumeDoc u nid o f n).file_size_kb = (((n + 512) / 1024 : ℕ) : ℤ) :=
  storedFileSizeKb_eq n

/-! ### Event-ordered executions with explicit failure points -/

/-- Events a request execution emits, in order: one per SQL statement,
file-system unlink, or transaction control command. -/
inductive Ev where
  | evBegin
  | evSelectOldImage
  | evUpdateUsers
  | evUpdateProfile
  | evInsertResume
  | evClearOtherDefaults
  | evSelectResume
  | evDeleteRow
  | evScoreRead
  | evScoreWrite
  | evCommit
  | evRollback
  | evUnlink (name : String)
deriving DecidableEq, BEq, Repr

/-- `path.basename`: the part of a path after its last `/`. -/
def basename (s : String) : String :=
  ⟨s.data.foldl (fun acc c => if c = '/' then [] else acc ++ [c]) []⟩

/-- The state a request acts on: the user's committed `user_profiles` row,
the committed `user_documents` rows, the row counts of the other scored
tables, and the file names present in the `uploads/` directory. -/
structure Sys where
  prof : ProfileRow
  docs : List Doc
  experience_count : ℕ
  education_count : ℕ
  skill_count : ℕ
  files : List String
deriving DecidableEq, Repr

/-- The resume-count subquery of `updateProfileCompletion` (line 1061). -/
def resumeCountOf (u : ℕ) (docs : List Doc) : ℕ :=
  docs.countP (fun d => d.user_id == u && d.document_type == "resume")

/-- The counts the scorer reads for user `u` when the documents table
holds `docs`. -/
def countsFor (st : Sys) (u : ℕ) (docs : List Doc) : Counts :=
  ⟨st.experience_count, st.education_count, st.skill_count,
    resumeCountOf u docs⟩

/-- The nullable request-body fields of `updateProfile` (lines 64-77). -/
structure UpdateInput where
  first_name : Option String
  last_name : Option String
  job_title : Option String
  location : Option String
  profile_summary : Option String
  professional_summary : Option String
  years_of_experience : Option String
  experience_level : Option String
  primary_industry : Option String
  website_url : Option String
  linkedin_url : Option String
  github_url : Option String
deriving DecidableEq, Repr

/-- SQL `COALESCE($i, column)` and JS `??`: the parameter when non-null,
else the stored value. -/
def coalesce (a b : Option String) : Option String :=
  match a with
  | some x => some x
  | none => b

/-- The `UPDATE user_profiles` statement of `updateProfile` (lines
119-149): `COALESCE` on each text field, and the final image URL written
directly into `profile_image_url` (no `COALESCE`, line 131). -/
def applyProfileUpdate (inp : UpdateInput) (finalImage : Option String)
    (p : ProfileRow) : ProfileRow :=
  { job_title := coalesce inp.job_title p.job_title,
    location := coalesce inp.location p.location,
    profile_summary := coalesce inp.profile_summary p.profile_summary,
    professional_summary :=
      coalesce inp.professional_summary p.professional_summary,
    years_of_experience :=
      coalesce inp.years_of_experience p.years_of_experience,
    experience_level := coalesce inp.experience_level p.experience_level,
    primary_industry := coalesce inp.primary_industry p.primary_industry,
    website_url := coalesce inp.website_url p.website_url,
    linkedin_url := coalesce inp.linkedin_url p.linkedin_url,
    github_url := coalesce inp.github_url p.github_url,
    profile_image_url := finalImage,
    profile_completion := p.profile_completion }

/-- The database statements of `updateProfile` that can throw. A failure
inside the score helper is modelled separately (`scorerFails`) because the
helper swallows its own errors when a client is passed (lines 1150-1158). -/
inductive UPFail where
  | noFail
  | atBegin
  | atSelectOldImage
  | atUpdateUsers
  | atUpdateProfile
  | atCommit
deriving DecidableEq, Repr

/-- The guard of the old-image deletion block (line 155):
`newProfileImageUrl && oldProfileImageUrl && newProfileImageUrl !== oldProfileImageUrl`. -/
def delOldCond (newUrl oldUrl : Option String) : Bool :=
  match newUrl, oldUrl with
  | some nu, some ou => nu != "" && ou != "" && nu != ou
  | _, _ => false

/-- One execution of `updateProfile` (lines 55-219) by user `userId`.
`file` is the multer-stored upload (its name already in `st.files`);
`failAt` is the query the database fails at; `scorerFails` makes the
in-transaction score recomputation fail (caught by the helper,
lines 1150-1158). Returns the final state, the event log, and whether
the handler forwarded an error.

The catch block (lines 196-211) issues `ROLLBACK` and unlinks the new
image only if `newProfileImageUrl` was already assigned; that variable is
set at line 100, after `BEGIN` and after the old-image `SELECT`, so a
failure at either of those two statements performs no file cleanup and
leaves the stored upload orphaned. The old image is unlinked inside the
transaction, right after the profile-row update (lines 153-171). A
swallowed scorer failure has still errored a statement on the open
transaction, which PostgreSQL thereby puts into aborted state: the
`COMMIT` at line 177 is issued without raising an error but performs a
rollback, so none of the pending row changes persist. -/
def runUpdateProfile (userId : ℕ) (inp : UpdateInput)
    (file : Option String) (scorerFails : Bool) (failAt : UPFail)
    (st : Sys) : Sys × List Ev × Bool :=
  let newUrl : Option String := file.map (fun f => "/uploads/" ++ f)
  -- the catch block before line 100: newProfileImageUrl is still null,
  -- so no unlink happens
  let failEarly := fun (log : List Ev) => (st, log ++ [Ev.evRollback], true)
  -- the catch block once newProfileImageUrl was assigned
  let fail := fun (files : List String) (log : List Ev) =>
    match newUrl with
    | none => ({ st with files := files }, log ++ [Ev.evRollback], true)
    | some nu => ({ st with files := files.erase (basename nu) },
        log ++ [Ev.evRollback, Ev.evUnlink (basename nu)], true)
  if failAt = UPFail.atBegin then failEarly []
  else
  let log1 := [Ev.evBegin]
  if file.isSome ∧ failAt = UPFail.atSelectOldImage then failEarly log1
  else
  let oldUrl : Option String :=
    if file.isSome then st.prof.profile_image_url else none
  let log2 := if file.isSome then log1 ++ [Ev.evSelectOldImage] else log1
  let updUsers := truthy inp.first_name || truthy inp.last_name
  if updUsers ∧ failAt = UPFail.atUpdateUsers then fail st.files log2
  else
  let log3 := if updUsers then log2 ++ [Ev.evUpdateUsers] else log2
  if failAt = UPFail.atUpdateProfile then fail st.files log3
  else
  let pending := applyProfileUpdate inp (coalesce newUrl oldUrl) st.prof
  let log4 := log3 ++ [Ev.evUpdateProfile]
  let oldBase := basename (oldUrl.getD "")
  let files5 :=
    if delOldCond newUrl oldUrl then st.files.erase oldBase else st.files
  let log5 :=
    if delOldCond newUrl oldUrl then log4 ++ [Ev.evUnlink oldBase] else log4
  let pending6 :=
    if scorerFails then pending
    else { pending with profile_completion := finalPercentage pending (countsFor st userId st.docs) }
  let log6 :=
    if scorerFails then log5 else log5 ++ [Ev.evScoreRead, Ev.evScoreWrite]
  if failAt = UPFail.atCommit then fail files5 log6
  else
  if scorerFails then
    -- aborted transaction: the COMMIT command succeeds but rolls back,
    -- so no pending row change persists; the handler reports success
    ({ st with files := files5 }, log6 ++ [Ev.evCommit], false)
  else
  ({ st with prof := pending6, files := files5 }, log6 ++ [Ev.evCommit], false)

/-- The failure points of `uploadResume`. `atScore` is a failure inside
the post-commit `updateProfileCompletion(userId)` call, re-thrown because
no client was passed (lines 1154-1156) and handled by the same catch block
as a database failure (lines 309-325). -/
inductive URFail where
  | noFail
  | atBegin
  | atInsert
  | atClear
  | atCommit
  | atScore
deriving DecidableEq, Repr

/-- One execution of `uploadResume` (lines 249-333) for user `userId`:
the stored file `fname` is already in `st.files`; the row is inserted
with `is_default_resume = true`, the other defaults are cleared, the
transaction commits, and only then is the completion score recomputed.
The catch block issues `ROLLBACK` (a no-op when the commit already
happened) and unlinks the stored file. -/
def runUploadResume (userId : ℕ) (origName fname : String)
    (sizeBytes : ℕ) (failAt : URFail) (st : Sys) :
    Sys × List Ev × Bool :=
  let cleanup := fun (docs : List Doc) (log : List Ev) =>
    ({ st with docs := docs, files := st.files.erase fname },
      log ++ [Ev.evRollback, Ev.evUnlink fname], true)
  if failAt = URFail.atBegin then cleanup st.docs []
  else
  let log1 := [Ev.evBegin]
  if failAt = URFail.atInsert then cleanup st.docs log1
  else
  let log2 := log1 ++ [Ev.evInsertResume]
  if failAt = URFail.atClear then cleanup st.docs log2
  else
  let newDocs := uploadResumeDb userId origName fname sizeBytes st.docs
  let log3 := log2 ++ [Ev.evClearOtherDefaults]
  if failAt = URFail.atCommit then cleanup st.docs log3
  else
  let log4 := log3 ++ [Ev.evCommit]
  if failAt = URFail.atScore then cleanup newDocs log4
  else
  let final : Sys :=
    { st with
      docs := newDocs,
      prof := { st.prof with profile_completion := finalPercentage st.prof (countsFor st userId newDocs) } }
  (final, log4 ++ [Ev.evScoreRead, Ev.evScoreWrite], false)

/-- One execution of `deleteResume` (lines 336-404): no transaction at
all — a lookup, the `DELETE`, the file unlink, then the score
recomputation, each a separate pool query. -/
def runDeleteResume (userId rid : ℕ) (st : Sys) : Sys × List Ev × Bool :=
  match st.docs.find? (fun d =>
      d.id == rid && d.user_id == userId && d.document_type == "resume") with
  | none => (st, [Ev.evSelectResume], false)
  | some row =>
    let docs1 := st.docs.filter (fun d => !(d.id == rid && d.user_id == userId))
    let files1 := st.files.erase (basename row.storage_url)
    let final : Sys :=
      { st with
        docs := docs1,
        files := files1,
        prof := { st.prof with profile_completion := finalPercentage st.prof (countsFor st userId docs1) } }
    (final,
      [Ev.evSelectResume, Ev.evDeleteRow,
        Ev.evUnlink (basename row.storage_url),
        Ev.evScoreRead, Ev.evScoreWrite], false)

/-- A committed profile row that references the stored image `o.p`. -/
def cProfile : ProfileRow :=
  { emptyProfileRow with profile_image_url := some "/uploads/o.p" }

/-- A concrete state: the profile references `o.p`, and the new upload
`n.p` has just been stored by multer. -/
def cSys : Sys :=
  { prof := cProfile, docs := [], experience_count := 0,
    education_count := 0, skill_count := 0, files := ["o.p", "n.p"] }

/-- A request body with every field absent. -/
def cInput : UpdateInput :=
  ⟨none, none, none, none, none, none, none, none, none, none, none, none⟩

/-- C9 counterexample: an `updateProfile` call without a new image during
which the in-transaction score recomputation fails returns success, yet
the committed row still holds the old image reference — the aborted
transaction made `COMMIT` roll the `NULL` write back. -/
theorem updateProfile_image_kept_on_abort_cx :
    (runUpdateProfile 1 cInput none true UPFail.noFail cSys).2.2 = false ∧
    (runUpdateProfile 1 cInput none true UPFail.noFail cSys).1.prof.profile_image_url
      = some "/uploads/o.p" ∧
    some "/uploads/o.p" ≠ (none : Option String) := by
  refine ⟨by decide, by decide, by decide⟩

/-- C9 (amended): an `updateProfile` call without a new image file whose
transaction really commits (the score recomputation does not fail) writes
`NULL` into `profile_image_url`, clearing any stored reference — the old
locator is only read when a new file is present and the update query
writes the image column directly; if the in-transaction score
recomputation fails, the aborted transaction rolls the write back and the
old image reference persists although the handler reports success. -/
theorem updateProfile_without_file_clears_image (userId : ℕ)
    (inp : UpdateInput) (st : Sys) :
    ((runUpdateProfile userId inp none false UPFail.noFail st).1.prof.profile_image_url
        = none ∧
      (runUpdateProfile userId inp none false UPFail.noFail st).2.2
        = false) ∧
    ((runUpdateProfile userId inp none true UPFail.noFail st).1.prof
        = st.prof ∧
      (runUpdateProfile userId inp none true UPFail.noFail st).2.2
        = false) := by
  constructor <;>
    simp [runUpdateProfile, applyProfileUpdate, coalesce, delOldCond]

/-- The state of a user who has just had the file `r.p` stored by multer,
with an empty registry. -/
def uSys : Sys :=
  { prof := emptyProfileRow, docs := [], experience_count := 0,
    education_count := 0, skill_count := 0, files := ["r.p"] }

/-- A request body that sets the job title. -/
def cInputTitle : UpdateInput := { cInput with job_title := some "T" }

/-- C10 counterexample: when the in-transaction score recomputation fails,
the error is swallowed and the handler answers success — but the field
mutation is not applied: the job title stays empty although the update
statement set it, because the aborted transaction's `COMMIT` rolled back. -/
theorem scorer_failure_loses_mutation_cx :
    (runUpdateProfile 1 cInputTitle none true UPFail.noFail uSys).2.2
      = false ∧
    (runUpdateProfile 1 cInputTitle none true UPFail.noFail uSys).1.prof.job_title
      = none ∧
    (applyProfileUpdate cInputTitle none uSys.prof).job_title = some "T" := by
  refine ⟨by decide, by decide, by decide⟩

/-- C10 (amended): when the in-transaction score recomputation fails
inside `updateProfile`, the helper catches the error and does not
re-throw, so the handler responds success and still issues `COMMIT`; but
the failed statement aborted the PostgreSQL transaction, so that `COMMIT`
performs a rollback: neither the field mutations nor any score change
persists, and the whole profile row keeps its previous values. -/
theorem scorer_failure_aborts_transaction (userId : ℕ)
    (inp : UpdateInput) (file : Option String) (st : Sys) :
    (runUpdateProfile userId inp file true UPFail.noFail st).2.2 = false ∧
    Ev.evCommit ∈ (runUpdateProfile userId inp file true UPFail.noFail st).2.1 ∧
    (runUpdateProfile userId inp file true UPFail.noFail st).1.prof
      = st.prof ∧
    (runUpdateProfile userId inp file true UPFail.noFail st).1.prof.profile_completion
      = st.prof.profile_completion := by
  cases file <;>
    simp [runUpdateProfile, applyProfileUpdate, coalesce, delOldCond]

/-- C6: a successful `uploadResume` emits insert-then-clear inside one
transaction (never clear-then-insert), performs no file unlink, and after
uploading R1 then R2 for user 7 the registry holds both rows with R2 the
only default. -/
theorem upload_insert_then_clear (userId : ℕ) (o f : String) (s : ℕ)
    (st : Sys) :
    (runUploadResume userId o f s URFail.noFail st).2.1 =
      [Ev.evBegin, Ev.evInsertResume, Ev.evClearOtherDefaults,
        Ev.evCommit, Ev.evScoreRead, Ev.evScoreWrite] ∧
    (runUploadResume userId o f s URFail.noFail st).1.docs =
      uploadResumeDb userId o f s st.docs ∧
    (runUploadResume userId o f s URFail.noFail st).1.files = st.files ∧
    (runOps [ResumeOp.upload 7 "r1" "f1" 1024,
        ResumeOp.upload 7 "r2" "f2" 2048]).map
        (fun d => (d.id, d.user_id, d.document_type, d.storage_url,
          d.is_default_resume)) =
      [(1, 7, "resume", "/uploads/f1", false),
        (2, 7, "resume", "/uploads/f2", true)] := by
  refine ⟨by simp [runUploadResume], by simp [runUploadResume],
    by simp [runUploadResume], by decide⟩

/-- C3 counterexample: in a committed `uploadResume`, the score
recomputation reads its counts strictly after `COMMIT` — not inside the
triggering transaction. -/
theorem score_read_after_commit_cx :
    (runUploadResume 1 "r" "r.p" 1024 URFail.noFail uSys).2.1 =
      [Ev.evBegin, Ev.evInsertResume, Ev.evClearOtherDefaults,
        Ev.evCommit, Ev.evScoreRead, Ev.evScoreWrite] ∧
    ([Ev.evBegin, Ev.evInsertResume, Ev.evClearOtherDefaults,
        Ev.evCommit, Ev.evScoreRead, Ev.evScoreWrite].indexOf Ev.evCommit <
      [Ev.evBegin, Ev.evInsertResume, Ev.evClearOtherDefaults,
        Ev.evCommit, Ev.evScoreRead, Ev.evScoreWrite].indexOf Ev.evScoreRead) := by
  decide

/-- C3 (amended): only `updateProfile` recomputes the score inside its own
transaction (the score read/write precede its commit); `uploadResume`
recomputes strictly after `COMMIT`, so a failure there leaves the new
resume committed with a stale score; `deleteResume` opens no transaction
at all. -/
theorem score_recompute_transaction_placement :
    (∀ (userId : ℕ) (inp : UpdateInput) (file : Option String) (st : Sys),
      Ev.evScoreRead ∈
        (runUpdateProfile userId inp file false UPFail.noFail st).2.1 ∧
      Ev.evScoreWrite ∈
        (runUpdateProfile userId inp file false UPFail.noFail st).2.1 ∧
      (runUpdateProfile userId inp file false UPFail.noFail st).2.1.getLast?
        = some Ev.evCommit) ∧
    (∀ (userId : ℕ) (o f : String) (s : ℕ) (st : Sys),
      (runUploadResume userId o f s URFail.noFail st).2.1 =
        [Ev.evBegin, Ev.evInsertResume, Ev.evClearOtherDefaults,
          Ev.evCommit, Ev.evScoreRead, Ev.evScoreWrite]) ∧
    (∀ (userId : ℕ) (o f : String) (s : ℕ) (st : Sys),
      (runUploadResume userId o f s URFail.atScore st).1.docs =
        uploadResumeDb userId o f s st.docs ∧
      (runUploadResume userId o f s URFail.atScore st).1.prof = st.prof ∧
      (runUploadResume userId o f s URFail.atScore st).2.2 = true) ∧
    (∀ (userId rid : ℕ) (st : Sys),
      Ev.evBegin ∉ (runDeleteResume userId rid st).2.1 ∧
      Ev.evCommit ∉ (runDeleteResume userId rid st).2.1) := by
  refine ⟨?_, ?_, ?_, ?_⟩
  · intro userId inp file st
    refine ⟨?_, ?_, ?_⟩ <;>
      simp [runUpdateProfile, List.getLast?_concat]
  · intro userId o f s st
    simp [runUploadResume]
  · intro userId o f s st
    refine ⟨?_, ?_, ?_⟩ <;> simp [runUploadResume]
  · intro userId rid st
    unfold runDeleteResume
    constructor <;> (split <;> simp)

lemma uploads_ne_empty (f : String) : ("/uploads/" ++ f) ≠ "" := by
  intro h
  have h2 := congrArg String.length h
  rw [String.length_append] at h2
  have h3 : ("/uploads/" : String).length = 9 := rfl
  have h4 : ("" : String).length = 0 := rfl
  omega

lemma not_mem_erase_self_of_count_le_one (a b : String) (l : List String)
    (h : l.count a ≤ 1) : a ∉ (l.erase a).erase b := by
  intro hmem
  have h1 : (l.erase a).count a = l.count a - 1 := List.count_erase_self a l
  have h2 : ((l.erase a).erase b).count a ≤ (l.erase a).count a :=
    (List.erase_sublist b (l.erase a)).count_le a
  have h3 : 0 < ((l.erase a).erase b).count a := List.count_pos_iff.mpr hmem
  omega

lemma not_mem_erase_of_count_le_one (a : String) (l : List String)
    (h : l.count a ≤ 1) : a ∉ l.erase a := by
  intro hmem
  have h1 : (l.erase a).count a = l.count a - 1 := List.count_erase_self a l
  have h3 : 0 < (l.erase a).count a := List.count_pos_iff.mpr hmem
  omega

/-- C4 counterexample: on the committed path of `updateProfile` with a new
image replacing an old one, the old file's unlink is emitted strictly
before `COMMIT` — the old artifact is deleted while the transaction is
still open. -/
theorem old_image_unlink_precedes_commit_cx :
    (runUpdateProfile 1 cInput (some "n.p") false UPFail.noFail cSys).2.1 =
      [Ev.evBegin, Ev.evSelectOldImage, Ev.evUpdateProfile,
        Ev.evUnlink "o.p", Ev.evScoreRead, Ev.evScoreWrite, Ev.evCommit] ∧
    ([Ev.evBegin, Ev.evSelectOldImage, Ev.evUpdateProfile,
        Ev.evUnlink "o.p", Ev.evScoreRead, Ev.evScoreWrite,
        Ev.evCommit].indexOf (Ev.evUnlink "o.p") <
      [Ev.evBegin, Ev.evSelectOldImage, Ev.evUpdateProfile,
        Ev.evUnlink "o.p", Ev.evScoreRead, Ev.evScoreWrite,
        Ev.evCommit].indexOf Ev.evCommit) := by
  decide

/-- C4 (amended): when `updateProfile` replaces an existing image, the old
file is unlinked inside the open transaction — after the profile-row
`UPDATE` and before `COMMIT` — and a rollback at commit does not restore
it: the database reverts while the old artifact is already gone. -/
theorem old_image_unlink_timing (userId : ℕ) (inp : UpdateInput)
    (f ou : String) (scorerFails : Bool) (st : Sys)
    (him : st.prof.profile_image_url = some ou) (hou : ou ≠ "")
    (hne : ("/uploads/" ++ f) ≠ ou)
    (hcnt : st.files.count (basename ou) ≤ 1) :
    (∃ l1 l2,
      (runUpdateProfile userId inp (some f) scorerFails UPFail.noFail st).2.1
        = l1 ++ [Ev.evUpdateProfile, Ev.evUnlink (basename ou)] ++ l2 ∧
      Ev.evCommit ∉ l1 ∧ Ev.evCommit ∈ l2) ∧
    (runUpdateProfile userId inp (some f) scorerFails UPFail.atCommit st).1.prof
      = st.prof ∧
    basename ou ∉
      (runUpdateProfile userId inp (some f) scorerFails UPFail.atCommit st).1.files ∧
    (runUpdateProfile userId inp (some f) scorerFails UPFail.atCommit st).2.2
      = true := by
  have hcond : delOldCond (some ("/uploads/" ++ f)) (some ou) = true := by
    simp only [delOldCond, Bool.and_eq_true, bne_iff_ne]
    exact ⟨⟨uploads_ne_empty f, hou⟩, hne⟩
  refine ⟨?_, ?_, ?_, ?_⟩
  · cases hu : truthy inp.first_name || truthy inp.last_name <;>
      cases scorerFails <;>
      simp only [runUpdateProfile] <;>
      simp [him, hcond, hu]
    · exact ⟨[Ev.evBegin, Ev.evSelectOldImage],
        [Ev.evScoreRead, Ev.evScoreWrite, Ev.evCommit],
        by simp, by simp, by simp⟩
    · exact ⟨[Ev.evBegin, Ev.evSelectOldImage], [Ev.evCommit],
        by simp, by simp, by simp⟩
    · exact ⟨[Ev.evBegin, Ev.evSelectOldImage, Ev.evUpdateUsers],
        [Ev.evScoreRead, Ev.evScoreWrite, Ev.evCommit],
        by simp, by simp, by simp⟩
    · exact ⟨[Ev.evBegin, Ev.evSelectOldImage, Ev.evUpdateUsers],
        [Ev.evCommit], by simp, by simp, by simp⟩
  · simp [runUpdateProfile, him, hcond]
  · simp only [runUpdateProfile]
    simp [him, hcond]
    exact not_mem_erase_self_of_count_le_one _ _ _ hcnt
  · simp [runUpdateProfile, him, hcond]

/-- Witness for C4 at a concrete replaced image. -/
theorem old_image_unlink_timing_witness :
    (∃ l1 l2,
      (runUpdateProfile 1 cInput (some "n.p") false UPFail.noFail cSys).2.1
        = l1 ++ [Ev.evUpdateProfile, Ev.evUnlink (basename "/uploads/o.p")] ++ l2 ∧
      Ev.evCommit ∉ l1 ∧ Ev.evCommit ∈ l2) ∧
    (runUpdateProfile 1 cInput (some "n.p") false UPFail.atCommit cSys).1.prof
      = cSys.prof ∧
    basename "/uploads/o.p" ∉
      (runUpdateProfile 1 cInput (some "n.p") false UPFail.atCommit cSys).1.files ∧
    (runUpdateProfile 1 cInput (some "n.p") false UPFail.atCommit cSys).2.2
      = true :=
  old_image_unlink_timing 1 cInput "n.p" "/uploads/o.p" false cSys
    (by decide) (by decide) (by decide) (by decide)

lemma foldl_basename_no_slash (l : List Char) (h : '/' ∉ l) :
    ∀ acc : List Char,
      l.foldl (fun acc c => if c = '/' then [] else acc ++ [c]) acc = acc ++ l := by
  induction l with
  | nil => intro acc; simp
  | cons c cs ih =>
    intro acc
    rw [List.foldl_cons]
    have hc : c ≠ '/' := by
      intro e
      exact h (e ▸ List.mem_cons_self c cs)
    rw [if_neg hc, ih (fun m => h (List.mem_cons_of_mem c m))]
    simp

lemma basename_uploads (f : String) (hf : '/' ∉ f.data) :
    basename ("/uploads/" ++ f) = f := by
  unfold basename
  rw [String.data_append, List.foldl_append]
  have h9 : ("/uploads/".data).foldl
      (fun acc c => if c = '/' then [] else acc ++ [c]) [] = [] := by decide
  rw [h9, foldl_basename_no_slash f.data hf []]
  cases f with
  | mk data => simp

/-- C5 counterexample: the original claim fails twice on `updateProfile`.
A transaction failure at `COMMIT` rolls the database back and deletes the
new artifact, but the pre-existing artifact `o.p` is **not** untouched —
the pre-commit replacement step already deleted it. And a failure at
`BEGIN` rolls back with **no** cleanup at all: `newProfileImageUrl` was
never assigned, so the catch block skips the unlink and the stored upload
`n.p` remains as an orphan. -/
theorem rollback_deletes_preexisting_cx :
    "o.p" ∈ cSys.files ∧
    (runUpdateProfile 1 cInput (some "n.p") false UPFail.atCommit cSys).2.2
      = true ∧
    (runUpdateProfile 1 cInput (some "n.p") false UPFail.atCommit cSys).1.prof
      = cSys.prof ∧
    "o.p" ∉
      (runUpdateProfile 1 cInput (some "n.p") false UPFail.atCommit cSys).1.files ∧
    "n.p" ∉
      (runUpdateProfile 1 cInput (some "n.p") false UPFail.atCommit cSys).1.files ∧
    (runUpdateProfile 1 cInput (some "n.p") false UPFail.atBegin cSys).2.2
      = true ∧
    (runUpdateProfile 1 cInput (some "n.p") false UPFail.atBegin cSys).1
      = cSys ∧
    "n.p" ∈
      (runUpdateProfile 1 cInput (some "n.p") false UPFail.atBegin cSys).1.files := by
  refine ⟨by decide, by decide, by decide, ?_, ?_, by decide, by decide,
    by decide⟩ <;> decide

lemma not_mem_erase_after_erase (a b : String) (l : List String)
    (h : l.count a ≤ 1) : a ∉ (l.erase b).erase a := by
  intro hmem
  have h1 : (l.erase b).count a ≤ l.count a := (List.erase_sublist b l).count_le a
  have h2 : ((l.erase b).erase a).count a = (l.erase b).count a - 1 :=
    List.count_erase_self a (l.erase b)
  have h3 : 0 < ((l.erase b).erase a).count a := List.count_pos_iff.mpr hmem
  omega

/-- C5 (amended): whenever the transaction fails after the new artifact
was stored, the database is rolled back and the handler reports the
error. In `uploadResume` the stored file is always deleted, so no orphan
remains and every other file survives. In `updateProfile` the new image
is deleted only when the failure comes after `newProfileImageUrl` was
assigned (the two `UPDATE`s or the `COMMIT`) — a failure at `BEGIN` or at
the old-image `SELECT` performs no cleanup and leaves the new image
orphaned — and other files survive those cleanups except that a `COMMIT`
failure comes after the pre-commit old-image deletion, so there the
replaced artifact is already gone. -/
theorem rollback_cleans_new_artifact :
    (∀ (userId : ℕ) (inp : UpdateInput) (f : String) (scorerFails : Bool)
        (st : Sys) (failAt : UPFail),
      '/' ∉ f.data → st.files.count f ≤ 1 →
      ((failAt = UPFail.atUpdateUsers ∧
          (truthy inp.first_name || truthy inp.last_name) = true) ∨
        failAt = UPFail.atUpdateProfile ∨ failAt = UPFail.atCommit) →
      ((runUpdateProfile userId inp (some f) scorerFails failAt st).2.2 = true ∧
        (runUpdateProfile userId inp (some f) scorerFails failAt st).1.prof
          = st.prof ∧
        f ∉ (runUpdateProfile userId inp (some f) scorerFails failAt st).1.files ∧
        (failAt ≠ UPFail.atCommit → ∀ g ∈ st.files, g ≠ f →
          g ∈ (runUpdateProfile userId inp (some f) scorerFails failAt st).1.files))) ∧
    (∀ (userId : ℕ) (inp : UpdateInput) (f : String) (scorerFails : Bool)
        (st : Sys) (failAt : UPFail),
      (failAt = UPFail.atBegin ∨ failAt = UPFail.atSelectOldImage) →
      ((runUpdateProfile userId inp (some f) scorerFails failAt st).2.2 = true ∧
        (runUpdateProfile userId inp (some f) scorerFails failAt st).1 = st)) ∧
    (∀ (userId : ℕ) (o fname : String) (s : ℕ) (st : Sys) (failAt : URFail),
      st.files.count fname ≤ 1 →
      (failAt = URFail.atBegin ∨ failAt = URFail.atInsert ∨
        failAt = URFail.atClear ∨ failAt = URFail.atCommit) →
      ((runUploadResume userId o fname s failAt st).2.2 = true ∧
        (runUploadResume userId o fname s failAt st).1.docs = st.docs ∧
        fname ∉ (runUploadResume userId o fname s failAt st).1.files ∧
        ∀ g ∈ st.files, g ≠ fname →
          g ∈ (runUploadResume userId o fname s failAt st).1.files)) := by
  refine ⟨?_, ?_, ?_⟩
  · intro userId inp f scorerFails st failAt hf hcnt hfail
    have hb := basename_uploads f hf
    rcases hfail with ⟨rfl, hu⟩ | rfl | rfl
    · have hfiles :
          (runUpdateProfile userId inp (some f) scorerFails
            UPFail.atUpdateUsers st).1.files = st.files.erase f := by
        simp [runUpdateProfile, hb, hu]
      refine ⟨by simp [runUpdateProfile, hu], by simp [runUpdateProfile, hu],
        ?_, ?_⟩
      · rw [hfiles]; exact not_mem_erase_of_count_le_one f st.files hcnt
      · intro _ g hg hgf
        rw [hfiles]; exact (List.mem_erase_of_ne hgf).mpr hg
    · have hfiles :
          (runUpdateProfile userId inp (some f) scorerFails
            UPFail.atUpdateProfile st).1.files = st.files.erase f := by
        simp [runUpdateProfile, hb]
      refine ⟨by simp [runUpdateProfile], by simp [runUpdateProfile], ?_, ?_⟩
      · rw [hfiles]; exact not_mem_erase_of_count_le_one f st.files hcnt
      · intro _ g hg hgf
        rw [hfiles]; exact (List.mem_erase_of_ne hgf).mpr hg
    · refine ⟨by simp [runUpdateProfile], by simp [runUpdateProfile], ?_, ?_⟩
      · cases hdel : delOldCond (some ("/uploads/" ++ f))
            st.prof.profile_image_url with
        | true =>
          have hfiles :
              (runUpdateProfile userId inp (some f) scorerFails
                UPFail.atCommit st).1.files =
              (st.files.erase
                (basename (st.prof.profile_image_url.getD ""))).erase f := by
            simp [runUpdateProfile, hb, hdel]
          rw [hfiles]
          exact not_mem_erase_after_erase f _ st.files hcnt
        | false =>
          have hfiles :
              (runUpdateProfile userId inp (some f) scorerFails
                UPFail.atCommit st).1.files = st.files.erase f := by
            simp [runUpdateProfile, hb, hdel]
          rw [hfiles]
          exact not_mem_erase_of_count_le_one f st.files hcnt
      · intro hne
        exact absurd rfl hne
  · intro userId inp f scorerFails st failAt hfail
    rcases hfail with rfl | rfl <;>
      exact ⟨by simp [runUpdateProfile], by simp [runUpdateProfile]⟩
  · intro userId o fname s st failAt hcnt hfail
    have key : ∀ failAt : URFail,
        failAt = URFail.atBegin ∨ failAt = URFail.atInsert ∨
          failAt = URFail.atClear ∨ failAt = URFail.atCommit →
        (runUploadResume userId o fname s failAt st).1.files
            = st.files.erase fname ∧
          (runUploadResume userId o fname s failAt st).2.2 = true ∧
          (runUploadResume userId o fname s failAt st).1.docs = st.docs := by
      intro fa hfa
      rcases hfa with rfl | rfl | rfl | rfl <;>
        refine ⟨by simp [runUploadResume], by simp [runUploadResume],
          by simp [runUploadResume]⟩
    obtain ⟨hfiles, herr, hdocs⟩ := key failAt hfail
    refine ⟨herr, hdocs, ?_, ?_⟩
    · rw [hfiles]; exact not_mem_erase_of_count_le_one fname st.files hcnt
    · intro g hg hgf
      rw [hfiles]; exact (List.mem_erase_of_ne hgf).mpr hg

/-- Witness for C5: a failure at the profile `UPDATE` on a concrete state
removes the new file, reverts the row, and leaves the other file alone; a
failure at `BEGIN` changes nothing at all (the upload stays orphaned); a
commit failure in `uploadResume` removes the new file and keeps the
registry. -/
theorem rollback_cleans_new_artifact_witness :
    ((runUpdateProfile 1 cInput (some "n.p") false UPFail.atUpdateProfile cSys).2.2
        = true ∧
      (runUpdateProfile 1 cInput (some "n.p") false UPFail.atUpdateProfile cSys).1.prof
        = cSys.prof ∧
      "n.p" ∉
        (runUpdateProfile 1 cInput (some "n.p") false UPFail.atUpdateProfile cSys).1.files ∧
      (UPFail.atUpdateProfile ≠ UPFail.atCommit → ∀ g ∈ cSys.files, g ≠ "n.p" →
        g ∈ (runUpdateProfile 1 cInput (some "n.p") false UPFail.atUpdateProfile cSys).1.files)) ∧
    ((runUpdateProfile 1 cInput (some "n.p") false UPFail.atBegin cSys).2.2
        = true ∧
      (runUpdateProfile 1 cInput (some "n.p") false UPFail.atBegin cSys).1
        = cSys) ∧
    ((runUploadResume 1 "r" "r.p" 1024 URFail.atCommit uSys).2.2 = true ∧
      (runUploadResume 1 "r" "r.p" 1024 URFail.atCommit uSys).1.docs
        = uSys.docs ∧
      "r.p" ∉ (runUploadResume 1 "r" "r.p" 1024 URFail.atCommit uSys).1.files ∧
      ∀ g ∈ uSys.files, g ≠ "r.p" →
        g ∈ (runUploadResume 1 "r" "r.p" 1024 URFail.atCommit uSys).1.files) :=
  ⟨rollback_cleans_new_artifact.1 1 cInput "n.p" false cSys
      UPFail.atUpdateProfile (by decide) (by decide) (Or.inr (Or.inl rfl)),
    rollback_cleans_new_artifact.2.1 1 cInput "n.p" false cSys UPFail.atBegin
      (Or.inl rfl),
    rollback_cleans_new_artifact.2.2 1 "r" "r.p" 1024 uSys URFail.atCommit
      (by decide) (Or.inr (Or.inr (Or.inr rfl)))⟩

end SkillMatch
